import Mathlib

/-!
Verification of the EduVerify wallet/session/contract-binding core.

This file shallowly embeds the TypeScript source of the repository:
  - src/components/web3-provider.tsx   (chain session, network policy)
  - src/unnamed/part_006               (AuthProvider: identity synchronization)
  - src/unnamed/part_001               (issued-credentials batch read, issue page)
  - src/app/verify/page.tsx            (verify page error extraction)

JavaScript-specific semantics (string truthiness, String.prototype.split,
String.prototype.includes, String.prototype.slice, String.prototype.trim)
are embedded as explicit executable functions below.
-/

namespace EduVerify

/-- JS truthiness of a nullable string: null/undefined and the empty
string are falsy, every other string is truthy. -/
def jsTruthy : Option String → Bool
  | none => false
  | some s => !s.isEmpty

/-- Embedding of the JS expression (needle is a prefix of the list). -/
def listStartsWith : List Char → List Char → Bool
  | [], _ => true
  | _ :: _, [] => false
  | a :: as, b :: bs => a = b && listStartsWith as bs

/-- Embedding of JS String.prototype.includes over character lists:
scan every suffix of the haystack for the needle at its front. -/
def jsIncludesList (needle : List Char) : List Char → Bool
  | [] => needle.isEmpty
  | c :: cs => listStartsWith needle (c :: cs) || jsIncludesList needle cs

/-- Embedding of JS hay.includes(needle). -/
def jsIncludes (hay needle : String) : Bool :=
  jsIncludesList needle.toList hay.toList

/-- Embedding of JS String.prototype.split with a one-character
separator: the list of separator-free segments, in order. -/
def jsSplitChar (sep : Char) : List Char → List (List Char)
  | [] => [[]]
  | c :: cs =>
    if c = sep then [] :: jsSplitChar sep cs
    else
      match jsSplitChar sep cs with
      | [] => [[c]]
      | h :: t => (c :: h) :: t

/-- Embedding of JS s.split(sep)[0] on strings. -/
def jsSplitHead (sep : Char) (s : String) : String :=
  String.mk ((jsSplitChar sep s.toList).headD [])

/-- Embedding of JS String.prototype.trim: drop whitespace from both
ends of the string. -/
def jsTrim (s : String) : String :=
  String.mk (((s.toList.dropWhile Char.isWhitespace).reverse.dropWhile
    Char.isWhitespace).reverse)

/-- Embedding of JS s.slice(0, n) on strings. -/
def jsSliceTo (s : String) (n : Nat) : String :=
  String.mk (s.toList.take n)

/-! ### Chain session (src/components/web3-provider.tsx) -/

/-- The single required chain id (web3-provider.tsx line 50). -/
def REQUIRED_CHAIN_ID : Nat := 656476

/-- The fixed deployed contract address (web3-provider.tsx line 19). -/
def contractAddress : String := "0xAa35AA4dDfbB5A817F480378b45C09B7D90F2B5E"

/-- A bound contract handle: new ethers.Contract(contractAddress,
contractABI, signer).  We record the address it is bound at and the
address of the signer it was constructed with. -/
structure BoundContract where
  boundAt : String
  signerAddress : String
deriving DecidableEq, Repr

/-- The React state of Web3Provider.  The signer handle is modelled by
the address it signs for; provider is modelled by its presence. -/
structure W3State where
  provider : Bool
  signer : Option String
  contract : Option BoundContract
  address : Option String
  chainId : Option Nat
  networkName : Option String
  isCorrectNetwork : Bool
  isConnecting : Bool
  pendingReload : Bool
deriving DecidableEq, Repr

/-- The initial React state: every handle null, flags false. -/
def emptyW3 : W3State :=
  { provider := false, signer := none, contract := none, address := none,
    chainId := none, networkName := none, isCorrectNetwork := false,
    isConnecting := false, pendingReload := false }

/-- The observable behaviour of the external wallet provider during one
operation: the network it reports, the authorized accounts, the signer
address, and which of the external calls succeed. -/
structure ProviderEnv where
  hasProvider : Bool
  chainId : Nat
  networkName : String
  accounts : List String
  address : String
  networkOk : Bool
  signerOk : Bool
  requestAccountsOk : Bool
deriving DecidableEq, Repr

/-- checkConnection (web3-provider.tsx lines 70 to 94): read the
network, then, when accounts are already authorized, silently acquire
the signer and bind the contract when on the required chain.  Any
failure is caught and leaves the remaining fields untouched. -/
def checkConnection (s : W3State) (e : ProviderEnv) : W3State :=
  if !e.networkOk then s
  else
    let s1 := { s with chainId := some e.chainId,
                       networkName := some e.networkName,
                       isCorrectNetwork := e.chainId = REQUIRED_CHAIN_ID }
    if e.accounts.length > 0 then
      if !e.signerOk then s1
      else
        let s2 := { s1 with signer := some e.address, address := some e.address }
        if e.chainId = REQUIRED_CHAIN_ID then
          { s2 with contract := some ⟨contractAddress, e.address⟩ }
        else s2
    else s1

/-- The initialization effect (web3-provider.tsx lines 64 to 131):
when a provider is injected, store it and run checkConnection;
otherwise leave all fields null. -/
def initializeW3 (s : W3State) (e : ProviderEnv) : W3State :=
  if e.hasProvider then checkConnection { s with provider := true } e else s

/-- Failure modes of connectWallet, from the error taxonomy of the
specification. -/
inductive ConnErr
  | providerAbsent
  | rejected
  | midwayFailure
deriving DecidableEq, Repr

/-- connectWallet (web3-provider.tsx lines 133 to 187).  Returns the
successor state and either the new address or the failure.  The
isConnecting flag is set true on entry and reset false in the finally
block, so its net value on every path past the provider check is
false. -/
def connectRun (s : W3State) (e : ProviderEnv) : W3State × Except ConnErr String :=
  if !s.provider then (s, .error .providerAbsent)
  else if !e.requestAccountsOk then
    ({ s with isConnecting := false }, .error .rejected)
  else if !e.networkOk then
    ({ s with isConnecting := false }, .error .midwayFailure)
  else
    let s1 := { s with chainId := some e.chainId,
                       networkName := some e.networkName,
                       isCorrectNetwork := e.chainId = REQUIRED_CHAIN_ID,
                       isConnecting := false }
    if !e.signerOk then (s1, .error .midwayFailure)
    else
      let s2 := { s1 with signer := some e.address, address := some e.address }
      if e.chainId = REQUIRED_CHAIN_ID then
        ({ s2 with contract := some ⟨contractAddress, e.address⟩ }, .ok e.address)
      else (s2, .ok e.address)

/-- disconnectWallet (web3-provider.tsx lines 189 to 214): clear the
local signer, address and contract handles only. -/
def disconnectRun (s : W3State) : W3State :=
  { s with signer := none, address := none, contract := none }

/-- The events driving the chain session: the initialization effect,
the user commands, the two provider subscriptions, and the reload a
chain change forces. -/
inductive W3Event
  | load (e : ProviderEnv)
  | connect (e : ProviderEnv)
  | disconnect
  | accountsChanged (accounts : List String) (e : ProviderEnv)
  | chainChanged (newChainId : Nat)
  | reload (e : ProviderEnv)

/-- One step of the chain session.  handleAccountsChanged
(lines 98 to 111) clears the session on an empty account set and
re-runs connectWallet otherwise; handleChainChanged (lines 113 to 118)
updates chainId and isCorrectNetwork and requests a reload; the reload
restarts from the empty state. -/
def w3Step (s : W3State) : W3Event → W3State
  | .load e => initializeW3 s e
  | .connect e => (connectRun s e).1
  | .disconnect => disconnectRun s
  | .accountsChanged accounts e =>
      if accounts.length = 0 then disconnectRun s
      else (connectRun s e).1
  | .chainChanged n =>
      { s with chainId := some n,
               isCorrectNetwork := n = REQUIRED_CHAIN_ID,
               pendingReload := true }
  | .reload e => initializeW3 emptyW3 e

/-- The states the chain session can reach from application load. -/
inductive W3Reachable : W3State → Prop
  | start : W3Reachable emptyW3
  | step {s : W3State} (ev : W3Event) : W3Reachable s → W3Reachable (w3Step s ev)

/-! ### Network policy: switchNetwork (web3-provider.tsx lines 216 to 267) -/

/-- The fixed chain descriptor passed to wallet_addEthereumChain
(web3-provider.tsx lines 236 to 248). -/
structure ChainDescriptor where
  chainIdHex : String
  chainName : String
  currencyName : String
  currencySymbol : String
  currencyDecimals : Nat
  rpcUrls : List String
  blockExplorerUrls : List String
deriving DecidableEq, Repr

/-- The hex chain id string the code interpolates:
"0x" followed by REQUIRED_CHAIN_ID.toString(16). -/
def requiredChainHex : String :=
  "0x" ++ String.mk (Nat.toDigits 16 REQUIRED_CHAIN_ID)

/-- The fixed descriptor for the required chain, field by field from
the source. -/
def requiredChainDescriptor : ChainDescriptor :=
  { chainIdHex := requiredChainHex,
    chainName := "Open Campus Codex",
    currencyName := "OCC Token",
    currencySymbol := "OCC",
    currencyDecimals := 18,
    rpcUrls := ["https://rpc.open-campus-codex.gelato.digital/"],
    blockExplorerUrls := ["https://explorer.open-campus-codex.gelato.digital/"] }

/-- The provider requests switchNetwork can issue. -/
inductive W3Request
  | switchChain (chainIdHex : String)
  | addChain (d : ChainDescriptor)
deriving DecidableEq, Repr

/-- Behaviour of the provider during switchNetwork: whether it is
injected, how the switch request ends (none means success, some c
means failure with error code c), and whether the add request
succeeds. -/
structure SwitchEnv where
  hasProvider : Bool
  switchError : Option Nat
  addOk : Bool
deriving DecidableEq, Repr

/-- The provider requests switchNetwork issues, in order: nothing
without a provider; the switch request; then, exactly when the switch
fails with code 4902, the add-chain request with the fixed descriptor.
No request follows the add-chain request on any path. -/
def switchNetworkRequests (e : SwitchEnv) : List W3Request :=
  if !e.hasProvider then []
  else
    match e.switchError with
    | none => [.switchChain requiredChainHex]
    | some code =>
      if code = 4902 then
        [.switchChain requiredChainHex, .addChain requiredChainDescriptor]
      else [.switchChain requiredChainHex]

/-! ### Identity synchronization (src/unnamed/part_006, AuthProvider) -/

/-- The accountType union "student" | "institution". -/
inductive AccountType
  | student
  | institution
deriving DecidableEq, Repr

/-- The application-level user record (part_006 lines 7 to 13). -/
structure User where
  id : String
  name : String
  email : Option String
  accountType : AccountType
  walletAddress : Option String
deriving DecidableEq, Repr

/-- The AuthProvider state: the React user state and the persisted
record under the localStorage key eduverify_user. -/
structure AuthState where
  user : Option User
  stored : Option User
  isLoading : Bool
deriving DecidableEq, Repr

/-- linkWallet (part_006 lines 193 to 221): requires a logged-in user;
sets walletAddress on it and persists the full record.  When no user
is logged in the throw is caught and no state changes. -/
def linkWallet (a : AuthState) (walletAddress : String) : AuthState :=
  match a.user with
  | none => a
  | some u =>
      let u1 := { u with walletAddress := some walletAddress }
      { a with user := some u1, stored := some u1 }

/-- handleWalletConnection (part_006 lines 64 to 110), run whenever the
chain session address changes: with a truthy address and loading done,
either synthesize and persist a fresh wallet identity (no stored
record), or re-link when the stored record has no wallet or another
wallet. -/
def handleWalletConnection (address : Option String) (a : AuthState) : AuthState :=
  if jsTruthy address && !a.isLoading then
    let addr := address.getD ""
    match a.stored with
    | some parsedUser =>
        if jsTruthy parsedUser.walletAddress = false ∨
            parsedUser.walletAddress ≠ some addr then
          linkWallet a addr
        else a
    | none =>
        let newUser : User :=
          { id := "wallet-" ++ addr,
            name := "User " ++ jsSliceTo addr 6,
            email := none,
            accountType := .student,
            walletAddress := some addr }
        { a with user := some newUser, stored := some newUser }
  else a

/-- login (part_006 lines 112 to 152): derive the account type from
whether the email contains "institution", build the record (the random
id is a parameter of the embedding), auto-link the session address
when truthy, persist. -/
def loginUser (email _password randomId : String)
    (sessionAddress : Option String) : User :=
  let isInstitution := jsIncludes email "institution"
  let baseName := jsSplitHead '@' email
  { id := randomId,
    name := if isInstitution then baseName ++ " University" else baseName,
    email := some email,
    accountType := if isInstitution then .institution else .student,
    walletAddress := if jsTruthy sessionAddress then sessionAddress else none }

/-- The login state update (part_006 lines 134 to 135): set the user
and persist the same full record. -/
def loginRun (a : AuthState) (email password randomId : String)
    (sessionAddress : Option String) : AuthState :=
  let u := loginUser email password randomId sessionAddress
  { a with user := some u, stored := some u }

/-- register (part_006 lines 154 to 191): build the record from the
registration payload, auto-link the session address when truthy,
persist. -/
def registerUser (name : String) (email : Option String)
    (accountType : AccountType) (randomId : String)
    (sessionAddress : Option String) : User :=
  { id := randomId,
    name := name,
    email := email,
    accountType := accountType,
    walletAddress := if jsTruthy sessionAddress then sessionAddress else none }

/-- The register state update (part_006 lines 173 to 174). -/
def registerRun (a : AuthState) (name : String) (email : Option String)
    (accountType : AccountType) (randomId : String)
    (sessionAddress : Option String) : AuthState :=
  let u := registerUser name email accountType randomId sessionAddress
  { a with user := some u, stored := some u }

/-- The auth-level disconnectWallet (part_006 lines 223 to 251): with
no user it returns unchanged; otherwise it first calls the chain
session disconnect, then clears walletAddress on the user and persists
the full record. -/
def authDisconnectWallet (a : AuthState) (w : W3State) : AuthState × W3State :=
  match a.user with
  | none => (a, w)
  | some u =>
      let w1 := disconnectRun w
      let u1 := { u with walletAddress := none }
      ({ a with user := some u1, stored := some u1 }, w1)

/-! ### Contract binding reads and error extraction
(src/unnamed/part_001, src/app/verify/page.tsx) -/

/-- The tuple verifyCertificate returns: (studentName, degree,
university, ipfsHash). -/
structure CertDetails where
  studentName : String
  degree : String
  university : String
  ipfsHash : String
deriving DecidableEq, Repr

/-- The credential view-model of the issued-credentials page
(part_001 lines 13 to 20). -/
structure Credential where
  id : Nat
  studentName : String
  degree : String
  university : String
  ipfsHash : String
  recipientAddress : String
deriving DecidableEq, Repr

/-- The per-item loop of fetchIssuedCredentials (part_001 lines 51 to
75): for each token id call verifyCertificate then ownerOf inside a
try/catch; on success push the credential, on any failure skip the
item and continue. -/
def fetchIssuedCredentials (verify : Nat → Except String CertDetails)
    (ownerOf : Nat → Except String String)
    (issuedTokenIds : List Nat) : List Credential :=
  issuedTokenIds.foldl (fun credentialsList tokenId =>
    match verify tokenId with
    | .error _ => credentialsList
    | .ok details =>
        match ownerOf tokenId with
        | .error _ => credentialsList
        | .ok owner =>
            credentialsList ++
              [{ id := tokenId,
                 studentName := details.studentName,
                 degree := details.degree,
                 university := details.university,
                 ipfsHash := details.ipfsHash,
                 recipientAddress := owner }]) []

/-- The external failure object of a contract call, with the two
fields the code inspects. -/
structure JsError where
  reason : Option String
  message : Option String
deriving DecidableEq, Repr

/-- The error-message extraction of the issue page (part_001 lines 409
to 420) and the verify page (verify/page.tsx lines 85 to 96): start
from the page default, replace it by error.reason when truthy, else by
error.message split at the first "(" and trimmed when truthy. -/
def extractContractErrorMessage (defaultMessage : String) (e : JsError) : String :=
  if jsTruthy e.reason then e.reason.getD ""
  else if jsTruthy e.message then jsTrim (jsSplitHead '(' (e.message.getD ""))
  else defaultMessage

/-- The fixed default of the issue page (part_001 line 413). -/
def issueDefaultMessage : String :=
  "There was an error issuing the credential. Please try again."

/-- The fixed default of the verify page (verify/page.tsx line 89). -/
def verifyDefaultMessage : String :=
  "The credential could not be verified. It may not exist or there was an error."

/-! ### Specification-side definitions and concrete example inputs -/

/-- The session part of the network-gating invariant: a bound contract
handle implies a signer and an address. -/
def contractImpliesSession (s : W3State) : Prop :=
  s.contract ≠ none → s.signer ≠ none ∧ s.address ≠ none

/-- Classifier for switch requests, used to count retries. -/
def isSwitchRequest : W3Request → Bool
  | .switchChain _ => true
  | .addChain _ => false

/-- The per-item outcome of the batch read, stated from the claim: the
credential for a token id when both lookups succeed, nothing when
either fails. -/
def credentialFor (verify : Nat → Except String CertDetails)
    (ownerOf : Nat → Except String String) (tokenId : Nat) : Option Credential :=
  match verify tokenId with
  | .error _ => none
  | .ok details =>
      match ownerOf tokenId with
      | .error _ => none
      | .ok owner =>
          some { id := tokenId,
                 studentName := details.studentName,
                 degree := details.degree,
                 university := details.university,
                 ipfsHash := details.ipfsHash,
                 recipientAddress := owner }

/-- The claim wording for the message cleanup: the text of the raw
message before the first opening parenthesis, trimmed of surrounding
whitespace. -/
def messageBeforeParen (m : String) : String :=
  jsTrim (String.mk (m.toList.takeWhile (fun c => c ≠ '(')))

/-- A provider environment connecting one account on the required
chain, every external call succeeding. -/
def envGood : ProviderEnv :=
  { hasProvider := true, chainId := REQUIRED_CHAIN_ID,
    networkName := "open-campus-codex",
    accounts := ["0xabc123"], address := "0xabc123",
    networkOk := true, signerOk := true, requestAccountsOk := true }

/-- The same environment on a different chain (id 1). -/
def envOtherChain : ProviderEnv := { envGood with chainId := 1 }

/-- The same environment with the account-access request rejected by
the user. -/
def envRejected : ProviderEnv := { envGood with requestAccountsOk := false }

/-- The session after loading with envGood: connected on the required
chain, contract bound. -/
def sConnected : W3State := w3Step emptyW3 (.load envGood)

/-- The session right after a chain-changed event to chain 1, before
the forced reload. -/
def sAfterChainChange : W3State := w3Step sConnected (.chainChanged 1)

/-- The session after loading with envOtherChain: connected on the
wrong chain, contract unbound. -/
def sWrongConnected : W3State := w3Step emptyW3 (.load envOtherChain)

/-- The wrong-chain session right after a chain-changed event onto the
required chain, before the forced reload. -/
def sAfterChainChangeToRequired : W3State :=
  w3Step sWrongConnected (.chainChanged REQUIRED_CHAIN_ID)

/-- A logged-in user with a linked wallet. -/
def exampleUser : User :=
  { id := "u1", name := "Alice", email := some "alice@school.org",
    accountType := .student, walletAddress := some "0xabc123" }

/-- The auth state holding exampleUser in memory and in the store. -/
def exampleAuth : AuthState :=
  { user := some exampleUser, stored := some exampleUser, isLoading := false }

/-- The switchNetwork environment of the fallback path: the switch
request fails with code 4902 and the add request succeeds. -/
def switchEnv4902 : SwitchEnv :=
  { hasProvider := true, switchError := some 4902, addOk := true }

/-- A verify lookup that fails for token id 2 and succeeds elsewhere. -/
def exampleVerify : Nat → Except String CertDetails
  | 2 => .error "execution reverted"
  | _ => .ok { studentName := "S", degree := "BSc", university := "U",
               ipfsHash := "Qm" }

/-- An ownerOf lookup that always succeeds. -/
def exampleOwnerOf : Nat → Except String String :=
  fun _ => .ok "0xowner"

/-! ## Helper lemmas -/

/-- jsSplitChar always yields at least one segment. -/
theorem jsSplitChar_ne_nil (sep : Char) (l : List Char) : jsSplitChar sep l ≠ [] := by
  induction l with
  | nil => simp [jsSplitChar]
  | cons c cs ih =>
    simp only [jsSplitChar]
    split_ifs
    · simp
    · cases hcs : jsSplitChar sep cs with
      | nil => exact absurd hcs ih
      | cons hd tl => simp

/-- The first segment of jsSplitChar is the longest separator-free
front of the list. -/
theorem jsSplitChar_headD (sep : Char) (l : List Char) :
    (jsSplitChar sep l).headD [] = l.takeWhile (fun c => c ≠ sep) := by
  induction l with
  | nil => simp [jsSplitChar]
  | cons c cs ih =>
    by_cases h : c = sep
    · simp [jsSplitChar, List.takeWhile_cons, h]
    · cases hcs : jsSplitChar sep cs with
      | nil => exact absurd hcs (jsSplitChar_ne_nil sep cs)
      | cons hd tl =>
        rw [hcs] at ih
        simp only [List.headD_cons] at ih
        simp [jsSplitChar, List.takeWhile_cons, h, hcs, ih]

/-- jsSplitHead computes the text before the first separator. -/
theorem jsSplitHead_eq (sep : Char) (s : String) :
    jsSplitHead sep s = String.mk (s.toList.takeWhile (fun c => c ≠ sep)) := by
  unfold jsSplitHead
  rw [jsSplitChar_headD]

/-- listStartsWith decides whether the needle is an initial segment. -/
theorem listStartsWith_iff (n : List Char) :
    ∀ h : List Char, listStartsWith n h = true ↔ ∃ t, h = n ++ t := by
  induction n with
  | nil => intro h; simp [listStartsWith]
  | cons a as ih =>
    intro h
    cases h with
    | nil => simp [listStartsWith]
    | cons b bs =>
      simp only [listStartsWith, Bool.and_eq_true, decide_eq_true_eq, ih,
        List.cons_append, List.cons.injEq]
      constructor
      · rintro ⟨rfl, t, rfl⟩
        exact ⟨t, rfl, rfl⟩
      · rintro ⟨t, rfl, rfl⟩
        exact ⟨rfl, t, rfl⟩

/-- jsIncludesList decides whether the needle occurs contiguously
inside the haystack. -/
theorem jsIncludesList_iff (n : List Char) :
    ∀ h : List Char, jsIncludesList n h = true ↔ ∃ p q, h = p ++ n ++ q := by
  intro h
  induction h with
  | nil =>
    simp only [jsIncludesList, List.isEmpty_iff]
    constructor
    · rintro rfl
      exact ⟨[], [], rfl⟩
    · rintro ⟨p, q, hpq⟩
      rcases List.append_eq_nil.mp hpq.symm with ⟨h1, h2⟩
      exact (List.append_eq_nil.mp h1).2
  | cons c cs ih =>
    simp only [jsIncludesList, Bool.or_eq_true, listStartsWith_iff, ih]
    constructor
    · rintro (⟨t, ht⟩ | ⟨p, q, hpq⟩)
      · exact ⟨[], t, by simpa using ht⟩
      · exact ⟨c :: p, q, by simp [hpq]⟩
    · rintro ⟨p, q, hpq⟩
      cases p with
      | nil =>
        exact Or.inl ⟨q, by simpa using hpq⟩
      | cons x p =>
        simp only [List.cons_append, List.cons.injEq] at hpq
        exact Or.inr ⟨p, q, hpq.2⟩

/-- jsIncludes decides substring containment on strings. -/
theorem jsIncludes_iff (hay needle : String) :
    jsIncludes hay needle = true ↔
      ∃ p q, hay.toList = p ++ needle.toList ++ q :=
  jsIncludesList_iff needle.toList hay.toList

/-- The skip-on-failure fold of the batch read equals a filterMap over
the per-item outcome, relative to any accumulator. -/
theorem fetchIssuedCredentials_aux (verify : Nat → Except String CertDetails)
    (ownerOf : Nat → Except String String) :
    ∀ (ids : List Nat) (acc : List Credential),
      List.foldl (fun credentialsList tokenId =>
        match verify tokenId with
        | .error _ => credentialsList
        | .ok details =>
            match ownerOf tokenId with
            | .error _ => credentialsList
            | .ok owner =>
                credentialsList ++
                  [{ id := tokenId,
                     studentName := details.studentName,
                     degree := details.degree,
                     university := details.university,
                     ipfsHash := details.ipfsHash,
                     recipientAddress := owner }]) acc ids
        = acc ++ ids.filterMap (credentialFor verify ownerOf) := by
  intro ids
  induction ids with
  | nil => intro acc; simp
  | cons t ids ih =>
    intro acc
    simp only [List.foldl_cons, List.filterMap_cons, credentialFor]
    cases hv : verify t with
    | error err => simp [ih]
    | ok details =>
      cases ho : ownerOf t with
      | error err => simp [ih]
      | ok owner => simp [ih, credentialFor, hv, ho]

/-! ## Claim C6 -/

/-- C6: in a credential batch read, a failing item is skipped and
never aborts the batch: the result is exactly the list of credentials
of the token ids whose lookups succeed, in original order; in
particular for token ids 1, 2, 3 with the lookup of id 2 failing, the
result holds exactly the entries for ids 1 and 3, in that order. -/
theorem c6_batch_isolation (verify : Nat → Except String CertDetails)
    (ownerOf : Nat → Except String String) (ids : List Nat) :
    fetchIssuedCredentials verify ownerOf ids =
      ids.filterMap (credentialFor verify ownerOf) ∧
    fetchIssuedCredentials exampleVerify exampleOwnerOf [1, 2, 3] =
      [{ id := 1, studentName := "S", degree := "BSc", university := "U",
         ipfsHash := "Qm", recipientAddress := "0xowner" },
       { id := 3, studentName := "S", degree := "BSc", university := "U",
         ipfsHash := "Qm", recipientAddress := "0xowner" }] := by
  constructor
  · simpa [fetchIssuedCredentials] using
      fetchIssuedCredentials_aux verify ownerOf ids []
  · decide

/-! ## Claim C7 -/

/-- C7 counterexample: a failure object whose reason field is present
(the empty string) together with a raw message.  The claim says the
user-visible reason equals the reason field whenever it is present,
but the code tests JS truthiness, so the empty-string reason is
skipped and the message heuristic is used instead. -/
theorem c7_counterexample :
    (JsError.mk (some "") (some "boom (code=x)")).reason = some "" ∧
    extractContractErrorMessage issueDefaultMessage
      (JsError.mk (some "") (some "boom (code=x)")) = "boom" ∧
    ("boom" : String) ≠ "" := by
  refine ⟨rfl, by decide, by decide⟩

/-- C7 amended: the user-visible reason equals the reason field when
that field is present and non-empty; otherwise, when the raw message
is present and non-empty, it equals the text of the raw message before
the first opening parenthesis, trimmed of surrounding whitespace;
otherwise it is the fixed page default. -/
theorem c7_reason_extraction (d : String) (e : JsError) :
    (jsTruthy e.reason = true →
      extractContractErrorMessage d e = e.reason.getD "") ∧
    (jsTruthy e.reason = false → jsTruthy e.message = true →
      extractContractErrorMessage d e = messageBeforeParen (e.message.getD "")) ∧
    (jsTruthy e.reason = false → jsTruthy e.message = false →
      extractContractErrorMessage d e = d) := by
  refine ⟨fun h1 => ?_, fun h1 h2 => ?_, fun h1 h2 => ?_⟩
  · simp [extractContractErrorMessage, h1]
  · simp [extractContractErrorMessage, h1, h2, messageBeforeParen, jsSplitHead_eq]
  · simp [extractContractErrorMessage, h1, h2]

/-- C7 witness: the three branches of the extraction at concrete
failure objects. -/
theorem c7_witness :
    extractContractErrorMessage issueDefaultMessage
      (JsError.mk (some "execution reverted: bad input") (some "boom (code=x)"))
      = "execution reverted: bad input" ∧
    extractContractErrorMessage issueDefaultMessage
      (JsError.mk none (some " boom (code=x)")) = "boom" ∧
    extractContractErrorMessage verifyDefaultMessage (JsError.mk none none)
      = verifyDefaultMessage := by
  refine ⟨?_, ?_, ?_⟩
  · exact ((c7_reason_extraction issueDefaultMessage _).1 (by decide)).trans (by decide)
  · exact (((c7_reason_extraction issueDefaultMessage _).2.1 (by decide)
      (by decide)).trans (by decide))
  · exact (c7_reason_extraction verifyDefaultMessage _).2.2 (by decide) (by decide)

/-! ## Claim C3 -/

/-- C3 counterexample: a connected session (address 0xabc123) and an
active identity linked to that wallet.  The claim says unlink leaves
ChainSession.address unchanged, but the auth-level disconnectWallet
first calls the session-level disconnect, which clears the session
address. -/
theorem c3_counterexample :
    sConnected.address = some "0xabc123" ∧
    (authDisconnectWallet exampleAuth sConnected).2.address = none ∧
    (authDisconnectWallet exampleAuth sConnected).2.address ≠
      sConnected.address := by
  refine ⟨by decide, by decide, by decide⟩

/-- C3 amended: with an active identity, the auth-level
disconnectWallet clears walletAddress on the identity and persists the
full record, and it also clears the chain session address, signer and
contract handles by invoking the session-level disconnect (all other
session fields are untouched); only the external wallet authorization
itself is unaffected. -/
theorem c3_unlink_effect (u : User) (st : Option User) (b : Bool) (w : W3State) :
    authDisconnectWallet { user := some u, stored := st, isLoading := b } w =
      ({ user := some { u with walletAddress := none },
         stored := some { u with walletAddress := none },
         isLoading := b },
       { w with signer := none, address := none, contract := none }) := rfl

/-! ## Claim C4 -/

/-- C4 counterexample: the provider rejects the switch with the
unknown-chain code 4902 and accepts the add request.  The claim says
the code then retries the switch request, but the full request trace
is the one switch request followed by the add request: exactly one
switch request is ever issued, and the trace ends with the add. -/
theorem c4_counterexample :
    switchNetworkRequests switchEnv4902 =
      [.switchChain requiredChainHex, .addChain requiredChainDescriptor] ∧
    (switchNetworkRequests switchEnv4902).countP isSwitchRequest = 1 ∧
    (switchNetworkRequests switchEnv4902).getLast? =
      some (.addChain requiredChainDescriptor) := by
  refine ⟨rfl, rfl, rfl⟩

/-- C4 amended: when the initial chain-switch request fails with the
unknown-chain code 4902, switchNetwork requests the provider to add
the chain with the fixed descriptor but does not retry the switch
request; for any other error code no add-chain request is issued; on
every path at most one switch request and at most one add-chain
request are issued, so nothing is retried automatically. -/
theorem c4_switch_fallback (e : SwitchEnv) :
    (e.hasProvider = true → e.switchError = some 4902 →
      switchNetworkRequests e =
        [.switchChain requiredChainHex, .addChain requiredChainDescriptor]) ∧
    (e.hasProvider = true → ∀ c, e.switchError = some c → c ≠ 4902 →
      switchNetworkRequests e = [.switchChain requiredChainHex]) ∧
    (e.hasProvider = true → e.switchError = none →
      switchNetworkRequests e = [.switchChain requiredChainHex]) ∧
    (switchNetworkRequests e).countP isSwitchRequest ≤ 1 ∧
    (switchNetworkRequests e).countP (fun r => !isSwitchRequest r) ≤ 1 := by
  obtain ⟨hp, se, ao⟩ := e
  refine ⟨fun h1 h2 => ?_, fun h1 c h2 h3 => ?_, fun h1 h2 => ?_, ?_, ?_⟩
  · simp only at h1 h2
    subst h1 h2
    rfl
  · simp only at h1 h2
    subst h1 h2
    simp [switchNetworkRequests, h3]
  · simp only at h1 h2
    subst h1 h2
    rfl
  · cases hp <;> rcases se with _ | c <;>
      simp only [switchNetworkRequests] <;> first
        | decide
        | (split_ifs <;> simp [isSwitchRequest])
  · cases hp <;> rcases se with _ | c <;>
      simp only [switchNetworkRequests] <;> first
        | decide
        | (split_ifs <;> simp [isSwitchRequest])

/-- C4 witness: the fallback on the concrete 4902 environment and the
no-fallback on a user-rejection code 4001. -/
theorem c4_witness :
    switchNetworkRequests switchEnv4902 =
      [.switchChain requiredChainHex, .addChain requiredChainDescriptor] ∧
    switchNetworkRequests { switchEnv4902 with switchError := some 4001 } =
      [.switchChain requiredChainHex] := by
  refine ⟨(c4_switch_fallback switchEnv4902).1 rfl rfl,
    (c4_switch_fallback _).2.1 rfl 4001 rfl (by decide)⟩

/-! ## Claim C5 -/

/-- C5: on success connectWallet updates address, chainId and
networkName, attempts contract binding (binds exactly on the required
chain) and returns the new address; with no provider it fails with the
provider-absent connection error and leaves the full state unchanged;
on user rejection it fails with the rejected connection error and
leaves provider, signer, contract, address, chainId and networkName
unchanged. -/
theorem c5_connect_error_behaviour (s : W3State) (e : ProviderEnv) :
    (s.provider = false → connectRun s e = (s, .error .providerAbsent)) ∧
    (s.provider = true → e.requestAccountsOk = false →
      (connectRun s e).2 = .error .rejected ∧
      (connectRun s e).1.provider = s.provider ∧
      (connectRun s e).1.signer = s.signer ∧
      (connectRun s e).1.contract = s.contract ∧
      (connectRun s e).1.address = s.address ∧
      (connectRun s e).1.chainId = s.chainId ∧
      (connectRun s e).1.networkName = s.networkName) ∧
    (s.provider = true → e.requestAccountsOk = true → e.networkOk = true →
      e.signerOk = true →
      (connectRun s e).2 = .ok e.address ∧
      (connectRun s e).1.address = some e.address ∧
      (connectRun s e).1.chainId = some e.chainId ∧
      (connectRun s e).1.networkName = some e.networkName ∧
      (connectRun s e).1.signer = some e.address ∧
      (connectRun s e).1.contract =
        (if e.chainId = REQUIRED_CHAIN_ID then
          some ⟨contractAddress, e.address⟩ else s.contract)) := by
  refine ⟨fun h1 => ?_, fun h1 h2 => ?_, fun h1 h2 h3 h4 => ?_⟩
  · simp [connectRun, h1]
  · simp [connectRun, h1, h2]
  · by_cases hc : e.chainId = REQUIRED_CHAIN_ID <;>
      simp [connectRun, h1, h2, h3, h4, hc]

/-- C5 witness: the provider-absent failure from the empty state, the
user rejection on a connected state, and the successful connect with
its returned address. -/
theorem c5_witness :
    connectRun emptyW3 envGood = (emptyW3, .error .providerAbsent) ∧
    ((connectRun sConnected envRejected).2 = .error .rejected ∧
      (connectRun sConnected envRejected).1.address = sConnected.address) ∧
    (connectRun sConnected envGood).2 = .ok "0xabc123" := by
  refine ⟨(c5_connect_error_behaviour emptyW3 envGood).1 rfl, ?_, ?_⟩
  · have h := (c5_connect_error_behaviour sConnected envRejected).2.1
      (by decide) (by decide)
    exact ⟨h.1, h.2.2.2.2.1⟩
  · exact ((c5_connect_error_behaviour sConnected envGood).2.2
      (by decide) (by decide) (by decide) (by decide)).1

/-! ## Claim C8 -/

/-- C8: with no stored identity, a finished initial load, and a
non-empty chain-session address (per the data model an address is a
20-byte hex string, so never empty), Identity Synchronization creates
and persists an identity whose id is "wallet-" followed by the
address, whose accountType is student, and whose name is derived from
the first six characters of the address. -/
theorem c8_identity_synthesis (addr : String) (u : Option User) (h : addr ≠ "") :
    handleWalletConnection (some addr)
        { user := u, stored := none, isLoading := false } =
      { user := some { id := "wallet-" ++ addr,
                       name := "User " ++ jsSliceTo addr 6,
                       email := none,
                       accountType := .student,
                       walletAddress := some addr },
        stored := some { id := "wallet-" ++ addr,
                         name := "User " ++ jsSliceTo addr 6,
                         email := none,
                         accountType := .student,
                         walletAddress := some addr },
        isLoading := false } := by
  have hne : addr.isEmpty = false := by
    rcases hh : addr.isEmpty with _ | _
    · rfl
    · exact absurd ((String.isEmpty_iff addr).mp hh) h
  simp [handleWalletConnection, jsTruthy, hne]

/-- C8 witness: the synthesized identity for the concrete address
0xABCD1234. -/
theorem c8_witness :
    handleWalletConnection (some "0xABCD1234")
        { user := none, stored := none, isLoading := false } =
      { user := some { id := "wallet-0xABCD1234", name := "User 0xABCD",
                       email := none, accountType := .student,
                       walletAddress := some "0xABCD1234" },
        stored := some { id := "wallet-0xABCD1234", name := "User 0xABCD",
                         email := none, accountType := .student,
                         walletAddress := some "0xABCD1234" },
        isLoading := false } :=
  (c8_identity_synthesis "0xABCD1234" none (by decide)).trans (by decide)

/-! ## Claim C9 -/

/-- C9: login yields accountType institution exactly when the email
contains the substring "institution", and student otherwise; in
particular a@institution.org yields institution and a@school.org
yields student, for every password, generated id and session
address. -/
theorem c9_login_heuristic (email pw rid : String) (addr : Option String) :
    ((loginUser email pw rid addr).accountType = .institution ↔
      ∃ p q, email.toList = p ++ "institution".toList ++ q) ∧
    ((loginUser email pw rid addr).accountType = .student ↔
      ¬ ∃ p q, email.toList = p ++ "institution".toList ++ q) ∧
    (loginUser "a@institution.org" pw rid addr).accountType = .institution ∧
    (loginUser "a@school.org" pw rid addr).accountType = .student := by
  have key : ∀ em : String, (loginUser em pw rid addr).accountType =
      (if jsIncludes em "institution" then .institution else .student) :=
    fun _ => rfl
  have hmain : ∀ em : String,
      (loginUser em pw rid addr).accountType = .institution ↔
        ∃ p q, em.toList = p ++ "institution".toList ++ q := by
    intro em
    rw [key em, ← jsIncludes_iff em "institution"]
    cases hinc : jsIncludes em "institution" <;> simp [hinc]
  have hstud : ∀ em : String,
      (loginUser em pw rid addr).accountType = .student ↔
        ¬ (loginUser em pw rid addr).accountType = .institution := by
    intro em
    rw [key em]
    cases hinc : jsIncludes em "institution" <;> simp [hinc]
  refine ⟨hmain email, (hstud email).trans (not_congr (hmain email)), ?_, ?_⟩
  · rw [key]
    decide
  · rw [key]
    decide

/-! ## Claim C10 -/

/-- C10: login and register auto-link the chain-session address
without any explicit link call: when the session address is non-null
(per the data model a non-empty hex string) the created identity has
walletAddress equal to that address, and when the session address is
null the field is left absent. -/
theorem c10_wallet_autolink (email pw rid nm : String) (em : Option String)
    (ty : AccountType) :
    (∀ a : String, a ≠ "" →
      (loginUser email pw rid (some a)).walletAddress = some a ∧
      (registerUser nm em ty rid (some a)).walletAddress = some a) ∧
    (loginUser email pw rid none).walletAddress = none ∧
    (registerUser nm em ty rid none).walletAddress = none := by
  refine ⟨fun a ha => ?_, rfl, rfl⟩
  have hne : a.isEmpty = false := by
    rcases hh : a.isEmpty with _ | _
    · rfl
    · exact absurd ((String.isEmpty_iff a).mp hh) ha
  constructor
  · show (if jsTruthy (some a) then some a else none) = some a
    simp [jsTruthy, hne]
  · show (if jsTruthy (some a) then some a else none) = some a
    simp [jsTruthy, hne]

/-- C10 witness: login and register at the concrete session address
0xabc123 and at the null session address. -/
theorem c10_witness :
    (loginUser "a@school.org" "pw" "id1" (some "0xabc123")).walletAddress =
      some "0xabc123" ∧
    (loginUser "a@school.org" "pw" "id1" none).walletAddress = none ∧
    (registerUser "Bob" (some "b@x.org") .student "id2"
      (some "0xabc123")).walletAddress = some "0xabc123" ∧
    (registerUser "Bob" (some "b@x.org") .student "id2" none).walletAddress =
      none := by
  have h := c10_wallet_autolink "a@school.org" "pw" "id1" "Bob" (some "b@x.org")
    .student
  have h2 := c10_wallet_autolink "a@school.org" "pw" "id2" "Bob" (some "b@x.org")
    .student
  exact ⟨(h.1 "0xabc123" (by decide)).1, h.2.1,
    (h2.1 "0xabc123" (by decide)).2, h2.2.2⟩

/-! ## Claims C1 and C2: the session state machine -/

/-- checkConnection preserves the session part of the gating
invariant. -/
theorem checkConnection_session (s : W3State) (e : ProviderEnv)
    (h : contractImpliesSession s) :
    contractImpliesSession (checkConnection s e) := by
  unfold contractImpliesSession at *
  unfold checkConnection
  split_ifs <;> simp_all

/-- connectWallet preserves the session part of the gating
invariant. -/
theorem connectRun_session (s : W3State) (e : ProviderEnv)
    (h : contractImpliesSession s) :
    contractImpliesSession (connectRun s e).1 := by
  unfold contractImpliesSession at *
  unfold connectRun
  split_ifs <;> simp_all

/-- The initialization effect preserves the session part of the
gating invariant. -/
theorem initializeW3_session (s : W3State) (e : ProviderEnv)
    (h : contractImpliesSession s) :
    contractImpliesSession (initializeW3 s e) := by
  unfold initializeW3
  split_ifs
  · exact checkConnection_session _ e h
  · exact h

/-- Every session event preserves the session part of the gating
invariant. -/
theorem w3Step_session (s : W3State) (ev : W3Event)
    (h : contractImpliesSession s) : contractImpliesSession (w3Step s ev) := by
  cases ev with
  | load e => exact initializeW3_session s e h
  | connect e => exact connectRun_session s e h
  | disconnect => intro hc; exact absurd rfl hc
  | accountsChanged accounts e =>
    by_cases ha : accounts.length = 0
    · simp only [w3Step, ha, if_true]
      intro hc; exact absurd rfl hc
    · simp only [w3Step, if_neg ha]
      exact connectRun_session s e h
  | chainChanged n => exact h
  | reload e =>
    exact initializeW3_session emptyW3 e (fun hc => absurd rfl hc)

/-- C1 counterexample: two reachable states falsify the claimed
biconditional.  After connecting on the required chain and then
receiving a chain-changed event to chain 1, the contract handle is
still bound while chainId is not the required chain; after connecting
on chain 1 and then receiving a chain-changed event onto the required
chain, chainId is the required chain and the address is set while the
contract handle is null. -/
theorem c1_counterexample :
    (W3Reachable sAfterChainChange ∧ sAfterChainChange.contract ≠ none ∧
      sAfterChainChange.chainId ≠ some REQUIRED_CHAIN_ID) ∧
    (W3Reachable sAfterChainChangeToRequired ∧
      sAfterChainChangeToRequired.chainId = some REQUIRED_CHAIN_ID ∧
      sAfterChainChangeToRequired.address ≠ none ∧
      sAfterChainChangeToRequired.contract = none) := by
  refine ⟨⟨?_, by decide, by decide⟩, ?_, by decide, by decide, by decide⟩
  · exact W3Reachable.step (W3Event.chainChanged 1)
      (W3Reachable.step (W3Event.load envGood) W3Reachable.start)
  · exact W3Reachable.step (W3Event.chainChanged REQUIRED_CHAIN_ID)
      (W3Reachable.step (W3Event.load envOtherChain) W3Reachable.start)

/-- C1 amended: in every reachable state of the chain session a
non-null contract handle implies a non-null signer handle and a
non-null address.  The further conjunct chainId equal to
REQUIRED_CHAIN_ID, and with it the claimed biconditional, fails in
reachable states: a chain-changed event updates chainId but leaves a
previously bound contract handle in place until the forced reload
completes. -/
theorem c1_contract_session_invariant (s : W3State) (h : W3Reachable s) :
    s.contract ≠ none → s.signer ≠ none ∧ s.address ≠ none := by
  induction h with
  | start => intro hc; exact absurd rfl hc
  | step ev hr ih => exact w3Step_session _ ev ih

/-- C1 witness: the invariant applied at the concrete reachable
connected state, whose contract handle is bound. -/
theorem c1_witness : sConnected.signer ≠ none ∧ sConnected.address ≠ none :=
  c1_contract_session_invariant sConnected
    (W3Reachable.step (W3Event.load envGood) W3Reachable.start) (by decide)

/-- C2 counterexample: a reachable state with a bound contract handle
for which the chain-changed step leaves the contract handle non-null:
the handler only updates chainId and the network flag and requests the
reload, so the contract handle is not null immediately after the
event, contrary to the claim. -/
theorem c2_counterexample :
    W3Reachable sConnected ∧ sConnected.contract ≠ none ∧
    (w3Step sConnected (.chainChanged 1)).contract ≠ none ∧
    (w3Step sConnected (.chainChanged 1)).pendingReload = true := by
  refine ⟨W3Reachable.step (W3Event.load envGood) W3Reachable.start,
    by decide, by decide, by decide⟩

/-- C2 amended: the chain-changed handler does not clear the contract
handle immediately: for every state and new chain id, the step leaves
contract, signer, address and networkName unchanged, sets chainId to
the new id, recomputes the network-correctness flag, and marks the
forced reload as pending; the contract handle is reset only by the
reload reinitialization. -/
theorem c2_chain_changed_frame (s : W3State) (n : Nat) :
    (w3Step s (.chainChanged n)).contract = s.contract ∧
    (w3Step s (.chainChanged n)).signer = s.signer ∧
    (w3Step s (.chainChanged n)).address = s.address ∧
    (w3Step s (.chainChanged n)).networkName = s.networkName ∧
    (w3Step s (.chainChanged n)).chainId = some n ∧
    (w3Step s (.chainChanged n)).isCorrectNetwork =
      decide (n = REQUIRED_CHAIN_ID) ∧
    (w3Step s (.chainChanged n)).pendingReload = true :=
  ⟨rfl, rfl, rfl, rfl, rfl, rfl, rfl⟩

end EduVerify
